import Mathlib

/-!
# Food Wastage Management App — data-access layer, shallow embedding

The four relational tables of `app.py` are embedded as Lean lists of flat
records.  SQL NULL on the nullable `Food_ID` column of `food_listings` is
`Option Int` (the table is created by pandas `to_sql` with no primary key,
so an `INSERT` that omits `Food_ID` stores NULL); all other columns are
non-nullable in every row the program ever writes.  Queries and write
commands are embedded as pure functions on a `DBState`.
-/

/-- A row of the `providers` table (`providers_data`, app.py lines 39-48).
The SQL column `Type` is rendered `Type'` because `Type` is reserved. -/
structure Provider where
  Provider_ID : Int
  Name : String
  Type' : String
  Address : String
  City : String
  Contact : String
deriving DecidableEq, Repr

/-- A row of the `receivers` table (`receivers_data`, app.py lines 51-59). -/
structure Receiver where
  Receiver_ID : Int
  Name : String
  Type' : String
  City : String
  Contact : String
deriving DecidableEq, Repr

/-- A row of the `food_listings` table (app.py lines 62-75).  `Food_ID` is
nullable: the table has no primary-key or autoincrement declaration, so an
insert that omits the column stores NULL. -/
structure FoodListing where
  Food_ID : Option Int
  Food_Name : String
  Quantity : Int
  Expiry_Date : String
  Provider_ID : Int
  Location : String
  Food_Type : String
  Meal_Type : String
  Provider_Type : String
deriving DecidableEq, Repr

/-- A row of the `claims` table (`claims_data`, app.py lines 78-86). -/
structure Claim where
  Claim_ID : Int
  Food_ID : Int
  Receiver_ID : Int
  Status : String
  Timestamp : String
deriving DecidableEq, Repr

/-- The relational store: the four tables of the SQLite database. -/
structure DBState where
  providers : List Provider
  receivers : List Receiver
  food_listings : List FoodListing
  claims : List Claim
deriving DecidableEq, Repr

/-! ## Browse & Claim Food: the dynamic filter query (app.py lines 185-204)

```
SELECT fl.*, p.Name, p.Type, p.Contact
FROM food_listings fl JOIN providers p ON fl.Provider_ID = p.Provider_ID
WHERE fl.Location IN (sel_city) AND fl.Provider_Type IN (sel_pt)
  AND fl.Food_Type IN (sel_ft) AND fl.Meal_Type IN (sel_mt)
```

The IN-lists are built from the four multiselect values; SQLite evaluates
an empty `IN ()` list as false for every row.  A result row is the joined
(listing, provider) pair; the displayed columns are projections of it. -/

/-- The inner join `food_listings fl JOIN providers p ON fl.Provider_ID =
p.Provider_ID`. -/
def joinListingsProviders (db : DBState) : List (FoodListing × Provider) :=
  db.food_listings.flatMap fun fl =>
    (db.providers.filter fun p => p.Provider_ID == fl.Provider_ID).map fun p => (fl, p)

/-- The Browse &amp; Claim filter query: join, then the four IN-list
membership conjuncts of the WHERE clause. -/
def browseFilterQuery (db : DBState)
    (selected_city selected_provider_type selected_food_type selected_meal_type :
      List String) : List (FoodListing × Provider) :=
  (joinListingsProviders db).filter fun r =>
    selected_city.contains r.1.Location &&
    selected_provider_type.contains r.1.Provider_Type &&
    selected_food_type.contains r.1.Food_Type &&
    selected_meal_type.contains r.1.Meal_Type

/-! ## Demo store used to instantiate witness theorems -/

def demoProvider : Provider :=
  { Provider_ID := 1, Name := "Green Leaf Restaurant", Type' := "Restaurant",
    Address := "123 MG Road", City := "Bangalore", Contact := "9876543210" }

def demoListing : FoodListing :=
  { Food_ID := some 1001, Food_Name := "Vegetable Biryani", Quantity := 10,
    Expiry_Date := "2026-10-15", Provider_ID := 1, Location := "Bangalore",
    Food_Type := "Vegetarian", Meal_Type := "Lunch", Provider_Type := "Restaurant" }

def demoClaim : Claim :=
  { Claim_ID := 2001, Food_ID := 1001, Receiver_ID := 101, Status := "Pending",
    Timestamp := "2026-10-11 09:00:00" }

def demoDB : DBState :=
  { providers := [demoProvider], receivers := [],
    food_listings := [demoListing], claims := [demoClaim] }

/-! ## Manage Listings (CRUD), app.py lines 229-306 -/

/-- Add New Listing handler (app.py lines 246-256).  It looks up the
selected provider's `Type` and `City` (`SELECT Type, City FROM providers
WHERE Provider_ID = {id}`, first row) and runs

```
INSERT INTO food_listings (Food_Name, Quantity, Expiry_Date, Provider_ID,
  Location, Food_Type, Meal_Type, Provider_Type) VALUES (?,?,?,?,?,?,?,?)
```

The INSERT names no `Food_ID`, and the pandas-created table has no
primary-key or autoincrement declaration, so the stored `Food_ID` is NULL
(`none`).  When the provider id matches no row, indexing `['Type'][0]`
on the empty result raises, modelled as `none`. -/
def addListing (db : DBState) (provider_id : Int) (food_name : String)
    (quantity : Int) (expiry_date : String) (food_type meal_type : String) :
    Option DBState :=
  match db.providers.find? (fun p => p.Provider_ID == provider_id) with
  | none => none
  | some p =>
      some { db with
        food_listings := db.food_listings ++
          [{ Food_ID := none, Food_Name := food_name, Quantity := quantity,
             Expiry_Date := expiry_date, Provider_ID := provider_id,
             Location := p.City, Food_Type := food_type, Meal_Type := meal_type,
             Provider_Type := p.Type' }] }

/-- `SELECT * FROM food_listings WHERE Food_ID = fid`.  A NULL `Food_ID`
never compares equal to a supplied id. -/
def fetchListingById (db : DBState) (fid : Int) : List FoodListing :=
  db.food_listings.filter fun fl => fl.Food_ID == some fid

/-- `SELECT * FROM claims WHERE Food_ID = fid`. -/
def claimsByFoodId (db : DBState) (fid : Int) : List Claim :=
  db.claims.filter fun c => c.Food_ID == fid

/-- Update Existing Listing handler (app.py lines 280-287):
`UPDATE food_listings SET Quantity = ?, Expiry_Date = ? WHERE Food_ID = ?`. -/
def updateListing (db : DBState) (food_id : Int) (new_quantity : Int)
    (new_expiry_date : String) : DBState :=
  { db with
    food_listings := db.food_listings.map fun fl =>
      if fl.Food_ID == some food_id then
        { fl with Quantity := new_quantity, Expiry_Date := new_expiry_date }
      else fl }

/-- Remove Listing handler (app.py lines 298-306): first
`DELETE FROM claims WHERE Food_ID = fid`, then
`DELETE FROM food_listings WHERE Food_ID = fid`. -/
def removeListing (db : DBState) (food_id : Int) : DBState :=
  let afterClaims := { db with claims := db.claims.filter fun c => c.Food_ID != food_id }
  { afterClaims with
    food_listings := afterClaims.food_listings.filter fun fl => fl.Food_ID != some food_id }

/-! ## Startup (app.py lines 27-92)

`init_database` checks `os.path.exists(DB_NAME)` and generates and writes
the seed tables only when the database file is absent; when the file
exists it opens it as-is.  The disk file before startup is modelled as
`Option DBState` (`none` = no file). -/

/-- `init_database`: seed only when no database file exists; otherwise the
existing file's contents are kept unchanged. -/
def init_database (disk : Option DBState) (seed : DBState) : DBState :=
  match disk with
  | some existing => existing
  | none => seed

/-- The demo store after the Add New Listing handler runs on it with
provider 1, name "Fresh Apples", quantity 5, expiry "2026-10-20",
Vegetarian / Snacks. -/
def demoDBAfterAdd : DBState :=
  { demoDB with
    food_listings := demoDB.food_listings ++
      [{ Food_ID := none, Food_Name := "Fresh Apples", Quantity := 5,
         Expiry_Date := "2026-10-20", Provider_ID := 1, Location := "Bangalore",
         Food_Type := "Vegetarian", Meal_Type := "Snacks",
         Provider_Type := "Restaurant" }] }

/-- A store whose claims table was emptied by a session write, used to
exhibit persistence across restarts. -/
def demoDBModified : DBState := { demoDB with claims := [] }

/-! ## Analytics queries (app.py lines 335-459) -/

/-- The rows a single provider contributes to
`providers p LEFT JOIN receivers r ON p.City = r.City`: one row per
receiver of its city, or a single row with NULL when no receiver shares
the city. -/
def leftJoinRows (receivers : List Receiver) (p : Provider) :
    List (Provider × Option Receiver) :=
  match receivers.filter (fun r => r.City == p.City) with
  | [] => [(p, none)]
  | ms => ms.map fun r => (p, some r)

/-- The row set of `providers p LEFT JOIN receivers r ON p.City = r.City`. -/
def leftJoinProvidersReceivers (providers : List Provider)
    (receivers : List Receiver) : List (Provider × Option Receiver) :=
  providers.flatMap (leftJoinRows receivers)

/-- Analytics query 1 (app.py lines 339-345):

```
SELECT p.City, COUNT(DISTINCT p.Provider_ID) AS NumberOfProviders,
       COUNT(DISTINCT r.Receiver_ID) AS NumberOfReceivers
FROM providers p LEFT JOIN receivers r ON p.City = r.City GROUP BY p.City;
```

Groups of the left join keyed by `p.City`; `COUNT(DISTINCT ...)` ignores
the NULLs introduced by the outer join. -/
def query1 (providers : List Provider) (receivers : List Receiver) :
    List (String × Nat × Nat) :=
  let joined := leftJoinProvidersReceivers providers receivers
  ((joined.map fun pr => pr.1.City).dedup).map fun c =>
    let grp := joined.filter fun pr => pr.1.City == c
    (c, ((grp.map fun pr => pr.1.Provider_ID).dedup).length,
        ((grp.filterMap fun pr => pr.2.map Receiver.Receiver_ID).dedup).length)

/-- `SELECT * FROM food_listings` — the full listings table. -/
def selectAllListings (db : DBState) : List FoodListing :=
  db.food_listings

/-- Analytics query 5 (app.py lines 369-373):
`SELECT SUM(Quantity) AS TotalAvailableQuantity FROM food_listings;`.
SQL `SUM` aggregates the (never NULL) Quantity values and yields NULL when
the table has no rows. -/
def query5 (db : DBState) : Option Int :=
  match db.food_listings with
  | [] => none
  | ls => some (ls.foldl (fun acc fl => acc + fl.Quantity) 0)

/-- A store with all four tables empty. -/
def emptyDB : DBState :=
  { providers := [], receivers := [], food_listings := [], claims := [] }

/-! ## Quantity Estimator -/

/-- Modelled from the spec: the repository's single source file `app.py`
contains no Quantity Estimator implementation; §4.6 of the spec defines
`predict(Provider_Type, Location, Food_Type, Meal_Type)` as wrapping a
previously-trained categorical-feature regression function and returning
its raw output rounded to the nearest non-negative integer.  The trained
model is here an arbitrary pure function, passed as an argument. -/
def predict (model : String → String → String → String → ℚ)
    (provider_type location food_type meal_type : String) : ℕ :=
  (max 0 (round (model provider_type location food_type meal_type))).toNat

/-- A sample trained model, constant at 7/2, used only by the estimator
witness. -/
def demoModel : String → String → String → String → ℚ :=
  fun _ _ _ _ => 7 / 2

/-! ## Seed data generation (app.py lines 34-89)

The seed tables are fixed except for the `np.random` draws; each draw is a
parameter constrained exactly as the generator constrains it:
`np.random.randint(lo, hi)` yields values in `[lo, hi)`,
`np.random.choice(range(1001, 1021), size=15, replace=False)` yields
values in `[1001, 1020]`, and the generated dates/timestamps are opaque
strings. -/

def seedProviders : List Provider :=
  [{ Provider_ID := 1, Name := "Green Leaf Restaurant", Type' := "Restaurant",
     Address := "123 MG Road", City := "Bangalore", Contact := "9876543210" },
   { Provider_ID := 2, Name := "FreshMart Grocers", Type' := "Grocery Store",
     Address := "45 Commercial Street", City := "Bangalore", Contact := "9876543211" },
   { Provider_ID := 3, Name := "The Daily Bread Bakery", Type' := "Bakery",
     Address := "78 Church Street", City := "Bangalore", Contact := "9876543212" },
   { Provider_ID := 4, Name := "City Supermarket", Type' := "Supermarket",
     Address := "90 Brigade Road", City := "Bangalore", Contact := "9876543213" },
   { Provider_ID := 5, Name := "The Grand Hotel", Type' := "Restaurant",
     Address := "11 Palace Road", City := "Bangalore", Contact := "9876543214" },
   { Provider_ID := 6, Name := "Quick Bites Cafe", Type' := "Cafe",
     Address := "22 Koramangala High St", City := "Bangalore", Contact := "9876543215" },
   { Provider_ID := 7, Name := "HealthyHarvest Organics", Type' := "Grocery Store",
     Address := "33 Indiranagar 100ft Rd", City := "Bangalore", Contact := "9876543216" },
   { Provider_ID := 8, Name := "SeaBreeze Fine Dining", Type' := "Restaurant",
     Address := "44 Juhu Tara Road", City := "Mumbai", Contact := "9876543217" },
   { Provider_ID := 9, Name := "Budget Grocers", Type' := "Supermarket",
     Address := "55 Linking Road", City := "Mumbai", Contact := "9876543218" },
   { Provider_ID := 10, Name := "Sunrise Bakery", Type' := "Bakery",
     Address := "66 Hill Road", City := "Mumbai", Contact := "9876543219" }]

def seedReceivers : List Receiver :=
  [{ Receiver_ID := 101, Name := "Hope Foundation", Type' := "NGO",
     City := "Bangalore", Contact := "8765432109" },
   { Receiver_ID := 102, Name := "Community Food Bank", Type' := "Community Center",
     City := "Bangalore", Contact := "8765432108" },
   { Receiver_ID := 103, Name := "Shelter Home for All", Type' := "NGO",
     City := "Mumbai", Contact := "8765432107" },
   { Receiver_ID := 104, Name := "Child Care Trust", Type' := "NGO",
     City := "Mumbai", Contact := "8765432106" },
   { Receiver_ID := 105, Name := "Elderly Support Group", Type' := "Community Center",
     City := "Bangalore", Contact := "8765432105" },
   { Receiver_ID := 106, Name := "Daily Meals Initiative", Type' := "Individual",
     City := "Mumbai", Contact := "8765432104" },
   { Receiver_ID := 107, Name := "Street Dwellers Aid", Type' := "NGO",
     City := "Bangalore", Contact := "8765432103" },
   { Receiver_ID := 108, Name := "Urban Poor Collective", Type' := "Community Center",
     City := "Mumbai", Contact := "8765432102" }]

def seedFoodNames : List String :=
  ["Vegetable Biryani", "Fresh Apples", "Sourdough Bread", "Milk Cartons",
   "Chicken Curry", "Coffee & Sandwiches", "Organic Spinach", "Grilled Fish",
   "Lentils", "Assorted Pastries", "Paneer Butter Masala", "Brown Rice",
   "Whole Wheat Bread", "Yogurt Cups", "Idli Sambar", "Iced Tea", "Quinoa",
   "Prawn Masala", "Basmati Rice", "Muffins"]

def seedLocationsBase : List String :=
  ["Bangalore", "Bangalore", "Bangalore", "Bangalore", "Bangalore",
   "Bangalore", "Bangalore", "Mumbai", "Mumbai", "Mumbai"]

def seedFoodTypesBase : List String :=
  ["Vegetarian", "Vegetarian", "Vegetarian", "Vegetarian", "Non-Vegetarian",
   "Vegetarian", "Vegetarian", "Non-Vegetarian", "Vegetarian", "Vegetarian"]

def seedMealTypesBase : List String :=
  ["Lunch", "Snacks", "Breakfast", "Breakfast", "Dinner", "Breakfast",
   "Lunch", "Dinner", "Lunch", "Snacks"]

/-- `food_listings` seed rows (app.py lines 62-75).  `Food_ID` counts from
1001; `Quantity`, `Expiry_Date` and `Provider_ID` are the random draws;
the three category columns repeat their 10-element pattern twice (`* 2`);
the pandas `merge` with `providers[['Provider_ID', 'Type']]` is an inner
join that stamps the matching provider's Type as `Provider_Type`,
dropping rows whose `Provider_ID` matches no provider. -/
def mkSeedRow (qty : Fin 20 → Int) (expiry : Fin 20 → String)
    (pid : Fin 20 → Int) (i : Fin 20) (p : Provider) : FoodListing :=
  { Food_ID := some (1001 + ((i : ℕ) : Int)),
    Food_Name := seedFoodNames.getD (i : ℕ) "",
    Quantity := qty i, Expiry_Date := expiry i, Provider_ID := pid i,
    Location := (seedLocationsBase ++ seedLocationsBase).getD (i : ℕ) "",
    Food_Type := (seedFoodTypesBase ++ seedFoodTypesBase).getD (i : ℕ) "",
    Meal_Type := (seedMealTypesBase ++ seedMealTypesBase).getD (i : ℕ) "",
    Provider_Type := p.Type' }

def mkSeedListings (qty : Fin 20 → Int) (expiry : Fin 20 → String)
    (pid : Fin 20 → Int) : List FoodListing :=
  (List.finRange 20).filterMap fun i =>
    (seedProviders.find? fun p => p.Provider_ID == pid i).map
      (mkSeedRow qty expiry pid i)

/-- `claims` seed rows (app.py lines 78-86).  `Claim_ID` counts from 2001;
`Food_ID`, `Receiver_ID`, `Status` and `Timestamp` are the random draws. -/
def mkSeedClaims (food_id : Fin 15 → Int) (receiver_id : Fin 15 → Int)
    (status timestamp : Fin 15 → String) : List Claim :=
  (List.finRange 15).map fun i =>
    { Claim_ID := 2001 + ((i : ℕ) : Int), Food_ID := food_id i,
      Receiver_ID := receiver_id i, Status := status i, Timestamp := timestamp i }

/-! ### Concrete draw sample, used by the seed-integrity witness -/

def wqty : Fin 20 → Int := fun _ => 5
def wexpiry : Fin 20 → String := fun _ => "2026-10-20"
def wpid : Fin 20 → Int := fun i => 1 + (((i : ℕ) % 10 : ℕ) : Int)
def wcfid : Fin 15 → Int := fun i => 1001 + ((i : ℕ) : Int)
def wcrid : Fin 15 → Int := fun _ => 101
def wstatus : Fin 15 → String := fun _ => "Pending"
def wtimestamp : Fin 15 → String := fun _ => "2026-10-11 09:00:00"

/-- Two providers in a city "X" with no receivers, for the per-city report
scenario. -/
def providerX1 : Provider :=
  { Provider_ID := 1, Name := "A", Type' := "Restaurant", Address := "1 A St",
    City := "X", Contact := "1" }

def providerX2 : Provider :=
  { Provider_ID := 2, Name := "B", Type' := "Bakery", Address := "2 B St",
    City := "X", Contact := "2" }

/-- Filtering first by the complement of a key predicate and then by the
predicate itself leaves nothing. -/
theorem filter_key_of_filter_not_key {α : Type} (k : α → Bool) :
    ∀ l : List α, (l.filter fun a => !(k a)).filter (fun a => k a) = [] := by
  intro l
  induction l with
  | nil => rfl
  | cons a l ih =>
      by_cases h : k a = true
      · simp [List.filter_cons, h, ih]
      · simp only [Bool.not_eq_true] at h
        simp [List.filter_cons, h, ih]

/-- C1: with at least one empty selection set, every row fails the
corresponding `IN` conjunct, so the filtered list is empty. -/
theorem browseFilterQuery_empty_selection (db : DBState)
    (s1 s2 s3 s4 : List String)
    (h : s1 = [] ∨ s2 = [] ∨ s3 = [] ∨ s4 = []) :
    browseFilterQuery db s1 s2 s3 s4 = [] := by
  unfold browseFilterQuery
  refine List.filter_eq_nil_iff.mpr fun r _ => ?_
  rcases h with h | h | h | h <;> subst h <;> simp

/-- C1 witness: at the demo store, an empty City selection yields an empty
result even though the other three selections match the stored row. -/
theorem browseFilterQuery_empty_selection_witness :
    ([] : List String) = [] ∧
      browseFilterQuery demoDB [] ["Restaurant"] ["Vegetarian"] ["Lunch"] = [] :=
  ⟨rfl, browseFilterQuery_empty_selection demoDB [] ["Restaurant"] ["Vegetarian"] ["Lunch"]
    (Or.inl rfl)⟩

/-- C6: with four non-empty selections, every returned (listing, provider)
row has its Location, Provider_Type, Food_Type and Meal_Type in the
respective selection set. -/
theorem browseFilterQuery_sound (db : DBState) (s1 s2 s3 s4 : List String)
    (_h1 : s1 ≠ []) (_h2 : s2 ≠ []) (_h3 : s3 ≠ []) (_h4 : s4 ≠ [])
    (r : FoodListing × Provider) (hr : r ∈ browseFilterQuery db s1 s2 s3 s4) :
    r.1.Location ∈ s1 ∧ r.1.Provider_Type ∈ s2 ∧
      r.1.Food_Type ∈ s3 ∧ r.1.Meal_Type ∈ s4 := by
  have hmem := List.of_mem_filter hr
  simp only [List.contains, Bool.and_eq_true, List.elem_iff] at hmem
  exact ⟨hmem.1.1.1, hmem.1.1.2, hmem.1.2, hmem.2⟩

/-- C6 witness: the demo row returned under the full selections lies in all
four selection sets. -/
theorem browseFilterQuery_sound_witness :
    demoListing.Location ∈ ["Bangalore"] ∧
      demoListing.Provider_Type ∈ ["Restaurant"] ∧
      demoListing.Food_Type ∈ ["Vegetarian"] ∧
      demoListing.Meal_Type ∈ ["Lunch"] := by
  have h := browseFilterQuery_sound demoDB ["Bangalore"] ["Restaurant"] ["Vegetarian"]
    ["Lunch"] (by decide) (by decide) (by decide) (by decide) (demoListing, demoProvider)
    (by decide)
  exact h

/-- C2 (observed defect): running the Add handler on the demo store stamps
the provider's Type and City onto the new row as Provider_Type/Location,
but the INSERT omits Food_ID and the column has no autoincrement, so the
stored Food_ID is NULL: no fresh id is assigned, and a read-back by id
can never see the new row (fetching by any id returns exactly what it
returned before the insert). -/
theorem addListing_food_id_is_null :
    addListing demoDB 1 "Fresh Apples" 5 "2026-10-20" "Vegetarian" "Snacks" =
      some demoDBAfterAdd ∧
    demoDBAfterAdd.food_listings.map (fun fl => fl.Food_ID) = [some 1001, none] ∧
    (∀ fid : Int, fetchListingById demoDBAfterAdd fid = fetchListingById demoDB fid) := by
  refine ⟨by decide, by decide, fun fid => ?_⟩
  by_cases h : (1001 : Int) = fid
  · subst h; decide
  · simp [fetchListingById, demoDBAfterAdd, demoDB, demoListing, List.filter_cons, h]

/-- C3 counterexample: a store whose claims were deleted during a session
survives a restart untouched: `init_database` does not rebuild from seed
when a database file exists, refuting "discards any existing store state
and repopulates from the seed data on every process start". -/
theorem init_database_keeps_existing_file :
    init_database (some demoDBModified) demoDB = demoDBModified ∧
      init_database (some demoDBModified) demoDB ≠ demoDB := by
  constructor
  · rfl
  · decide

/-- C3 (amended): `init_database` populates the tables from the seed data
only when no database file exists; an existing file's contents, including
any writes from earlier sessions, are returned unchanged. -/
theorem init_database_seed_only_when_absent (disk seed : DBState) :
    init_database (some disk) seed = disk ∧ init_database none seed = seed :=
  ⟨rfl, rfl⟩

/-- C4: removing a listing deletes the matching claims first and then the
listing row, so afterwards both the claims query and the listing query by
that Food_ID return zero rows. -/
theorem removeListing_clears_claims_and_listing (db : DBState) (fid : Int) :
    claimsByFoodId (removeListing db fid) fid = [] ∧
      fetchListingById (removeListing db fid) fid = [] := by
  constructor
  · exact filter_key_of_filter_not_key (fun c => c.Food_ID == fid) db.claims
  · exact filter_key_of_filter_not_key (fun fl => fl.Food_ID == some fid) db.food_listings

/-- C5: the update rewrites only Quantity and Expiry_Date of rows whose
Food_ID matches the target; the other three tables, the listing count,
every non-matching row, and every other field of the matching row are
unchanged. -/
theorem updateListing_frame (db : DBState) (fid : Int) (q : Int) (e : String)
    (i : Nat) (fl : FoodListing) (hget : db.food_listings[i]? = some fl) :
    (updateListing db fid q e).providers = db.providers ∧
    (updateListing db fid q e).receivers = db.receivers ∧
    (updateListing db fid q e).claims = db.claims ∧
    (updateListing db fid q e).food_listings.length = db.food_listings.length ∧
    (fl.Food_ID ≠ some fid → (updateListing db fid q e).food_listings[i]? = some fl) ∧
    (fl.Food_ID = some fid →
      ∃ fl', (updateListing db fid q e).food_listings[i]? = some fl' ∧
        fl'.Food_ID = fl.Food_ID ∧ fl'.Food_Name = fl.Food_Name ∧
        fl'.Provider_ID = fl.Provider_ID ∧ fl'.Location = fl.Location ∧
        fl'.Food_Type = fl.Food_Type ∧ fl'.Meal_Type = fl.Meal_Type ∧
        fl'.Provider_Type = fl.Provider_Type ∧
        fl'.Quantity = q ∧ fl'.Expiry_Date = e) := by
  refine ⟨rfl, rfl, rfl, List.length_map _ _, ?_, ?_⟩
  · intro hne
    simp only [updateListing, List.getElem?_map, hget, Option.map_some]
    simp
    exact fun h => absurd h hne
  · intro heq
    refine ⟨{ fl with Quantity := q, Expiry_Date := e }, ?_,
      rfl, rfl, rfl, rfl, rfl, rfl, rfl, rfl, rfl⟩
    simp only [updateListing, List.getElem?_map, hget, Option.map_some]
    simp
    exact fun h => absurd heq h

/-- C5 witness: at the demo store, updating a non-matching id leaves row 0
exactly as it was, by the frame theorem applied at index 0. -/
theorem updateListing_frame_witness :
    demoDB.food_listings[0]? = some demoListing ∧
      demoListing.Food_ID ≠ some 999 ∧
      (updateListing demoDB 999 7 "2026-10-18").food_listings[0]? = some demoListing := by
  have h := updateListing_frame demoDB 999 7 "2026-10-18" 0 demoListing (by decide)
  exact ⟨by decide, by decide, h.2.2.2.2.1 (by decide)⟩

/-- Left-folding addition of quantities equals the accumulator plus the
sum of the mapped quantities. -/
theorem foldl_add_quantity (l : List FoodListing) :
    ∀ a : Int, l.foldl (fun acc fl => acc + fl.Quantity) a =
      a + (l.map fun fl => fl.Quantity).sum := by
  induction l with
  | nil => intro a; simp
  | cons x l ih =>
      intro a
      simp only [List.foldl_cons, List.map_cons, List.sum_cons, ih]
      ring

/-- C8 counterexample: on an empty listings table query 5 returns SQL NULL
rather than the (empty) sum 0 of the quantities of "select all
listings". -/
theorem query5_null_on_empty_table :
    query5 emptyDB ≠ some (((selectAllListings emptyDB).map fun fl => fl.Quantity).sum) := by
  decide

/-- C8 (amended): whenever the listings table has at least one row, query 5
returns exactly the sum of Quantity over the rows of "select all
listings"; on an empty table it returns NULL instead of the empty sum 0. -/
theorem query5_eq_sum_of_all_listings (db : DBState)
    (h : db.food_listings ≠ []) :
    query5 db = some (((selectAllListings db).map fun fl => fl.Quantity).sum) := by
  unfold query5 selectAllListings
  cases hl : db.food_listings with
  | nil => exact absurd hl h
  | cons x ls =>
      simp only [foldl_add_quantity]
      simp

/-- C8 witness: the demo store has one listing, and query 5 evaluates to
the sum of the quantities of all its listings. -/
theorem query5_eq_sum_of_all_listings_witness :
    demoDB.food_listings ≠ [] ∧
      query5 demoDB = some (((selectAllListings demoDB).map fun fl => fl.Quantity).sum) :=
  ⟨by decide, query5_eq_sum_of_all_listings demoDB (by decide)⟩

/-- C9: the estimator is deterministic — calling it twice on the same four
categorical inputs returns the same (non-negative, by its type) integer —
and, for a non-negative model output, that integer is within 1/2 of the
model's raw output, i.e. the nearest non-negative integer. -/
theorem predict_deterministic_and_rounded
    (model : String → String → String → String → ℚ)
    (pt loc ft mt : String) :
    predict model pt loc ft mt = predict model pt loc ft mt ∧
      (0 ≤ model pt loc ft mt →
        |model pt loc ft mt - (predict model pt loc ft mt : ℚ)| ≤ 1 / 2) := by
  refine ⟨rfl, fun h => ?_⟩
  have hround : (0 : ℤ) ≤ round (model pt loc ft mt) := by
    rw [round_eq]
    refine Int.le_floor.mpr ?_
    push_cast
    linarith
  have hcast : ((predict model pt loc ft mt : ℕ) : ℚ) =
      ((round (model pt loc ft mt) : ℤ) : ℚ) := by
    unfold predict
    rw [max_eq_right hround]
    exact_mod_cast Int.toNat_of_nonneg hround
  rw [hcast]
  exact abs_sub_round _

/-- C9 witness: at the constant sample model (raw output 7/2) the rounding
bound instantiates concretely. -/
theorem predict_deterministic_and_rounded_witness :
    (0 : ℚ) ≤ demoModel "Restaurant" "Bangalore" "Vegetarian" "Lunch" ∧
      |demoModel "Restaurant" "Bangalore" "Vegetarian" "Lunch" -
        (predict demoModel "Restaurant" "Bangalore" "Vegetarian" "Lunch" : ℚ)| ≤ 1 / 2 :=
  ⟨by norm_num [demoModel],
    (predict_deterministic_and_rounded demoModel "Restaurant" "Bangalore"
      "Vegetarian" "Lunch").2 (by norm_num [demoModel])⟩

/-- Every row a provider contributes to the left join carries that
provider as its first component. -/
theorem leftJoinRows_fst (receivers : List Receiver) (p : Provider) :
    ∀ pr ∈ leftJoinRows receivers p, pr.1 = p := by
  intro pr hpr
  unfold leftJoinRows at hpr
  cases hm : receivers.filter (fun r => r.City == p.City) with
  | nil =>
      rw [hm] at hpr
      simp only [List.mem_singleton] at hpr
      rw [hpr]
  | cons m ms =>
      rw [hm] at hpr
      obtain ⟨r, _, hr⟩ := List.mem_map.mp hpr
      rw [← hr]

/-- A provider in a city with no receivers contributes exactly the single
NULL-extended row. -/
theorem leftJoinRows_of_no_city_receivers (receivers : List Receiver)
    (p : Provider) (hr : ∀ r ∈ receivers, r.City ≠ p.City) :
    leftJoinRows receivers p = [(p, none)] := by
  unfold leftJoinRows
  have hemp : receivers.filter (fun r => r.City == p.City) = [] := by
    refine List.filter_eq_nil_iff.mpr fun r hrm => ?_
    simpa using hr r hrm
  rw [hemp]

/-- Restricting the left join to a city `c` with no receivers yields
exactly the providers of `c`, each paired with NULL. -/
theorem leftJoin_filter_city_of_no_receivers (c : String)
    (receivers : List Receiver) (hr : ∀ r ∈ receivers, r.City ≠ c) :
    ∀ providers : List Provider,
      (leftJoinProvidersReceivers providers receivers).filter
          (fun pr => pr.1.City == c) =
        (providers.filter fun p => p.City == c).map fun p => (p, none) := by
  intro providers
  induction providers with
  | nil => rfl
  | cons p ps ih =>
      simp only [leftJoinProvidersReceivers, List.flatMap_cons, List.filter_append,
        List.filter_cons] at *
      by_cases hc : p.City = c
      · have hrows : leftJoinRows receivers p = [(p, none)] := by
          refine leftJoinRows_of_no_city_receivers receivers p fun r hrm => ?_
          rw [hc]
          exact hr r hrm
        rw [hrows, ih]
        simp [hc]
      · have hrows : (leftJoinRows receivers p).filter (fun pr => pr.1.City == c) = [] := by
          refine List.filter_eq_nil_iff.mpr fun pr hpr => ?_
          have hfst := leftJoinRows_fst receivers p pr hpr
          rw [hfst]
          simpa using hc
        rw [hrows, ih]
        simp [hc]

/-- C7: a city that has at least one provider and no receivers appears in
analytics query 1 with its count of distinct providers and a
distinct-receiver count of 0, thanks to the LEFT JOIN on city. -/
theorem query1_city_with_providers_no_receivers (providers : List Provider)
    (receivers : List Receiver) (c : String)
    (hp : ∃ p ∈ providers, p.City = c)
    (hr : ∀ r ∈ receivers, r.City ≠ c) :
    (c, (((providers.filter fun p => p.City == c).map fun p => p.Provider_ID).dedup).length, 0)
      ∈ query1 providers receivers := by
  obtain ⟨p0, hp0mem, hp0city⟩ := hp
  have hrow : (p0, (none : Option Receiver)) ∈
      leftJoinProvidersReceivers providers receivers := by
    refine List.mem_flatMap.mpr ⟨p0, hp0mem, ?_⟩
    rw [leftJoinRows_of_no_city_receivers receivers p0 fun r hrm => ?_]
    · exact List.mem_singleton.mpr rfl
    · rw [hp0city]
      exact hr r hrm
  have hcity : c ∈ ((leftJoinProvidersReceivers providers receivers).map
      fun pr => pr.1.City).dedup := by
    rw [List.mem_dedup]
    exact List.mem_map.mpr ⟨(p0, none), hrow, hp0city⟩
  have hgrp := leftJoin_filter_city_of_no_receivers c receivers hr providers
  simp only [query1]
  refine List.mem_map.mpr ⟨c, hcity, ?_⟩
  rw [hgrp]
  simp only [List.map_map, List.filterMap_map, Function.comp, Option.map_none,
    Prod.mk.injEq, true_and]
  constructor
  · rfl
  · simp [List.filterMap]

/-- C7 witness: two providers in city "X" and no receivers produce, via the
theorem, the row ("X", 2, 0) — and the full report is exactly that one
row. -/
theorem query1_city_with_providers_no_receivers_witness :
    ("X", 2, 0) ∈ query1 [providerX1, providerX2] [] ∧
      query1 [providerX1, providerX2] [] = [("X", 2, 0)] := by
  constructor
  · have h := query1_city_with_providers_no_receivers [providerX1, providerX2] [] "X"
      (by decide) (by decide)
    have h2 : (((([providerX1, providerX2].filter fun p => p.City == "X").map
        fun p => p.Provider_ID).dedup).length) = 2 := by decide
    rw [h2] at h
    exact h
  · decide

/-- The seeded provider table contains every id in [1, 10] — the range of
`np.random.randint(1, 11)`. -/
theorem seedProviders_cover (id : Int) (h1 : 1 ≤ id) (h2 : id ≤ 10) :
    ∃ p ∈ seedProviders, p.Provider_ID = id := by
  interval_cases id <;> decide

/-- The provider lookup of the seed merge succeeds for every id in
[1, 10]. -/
theorem seedProviders_find_isSome (id : Int) (h1 : 1 ≤ id) (h2 : id ≤ 10) :
    (seedProviders.find? fun p => p.Provider_ID == id).isSome := by
  interval_cases id <;> decide

/-- The seeded receiver table contains every id in [101, 108] — the range
of `np.random.randint(101, 109)`. -/
theorem seedReceivers_cover (id : Int) (h1 : 101 ≤ id) (h2 : id ≤ 108) :
    ∃ r ∈ seedReceivers, r.Receiver_ID = id := by
  interval_cases id <;> decide

/-- C10: for every admissible realization of the random draws — listing
Provider_IDs in [1, 10], claim Food_IDs in [1001, 1020], claim
Receiver_IDs in [101, 108] — the generated seed data is referentially
intact: each listing's Provider_ID names a seeded provider, each claim's
Food_ID names a seeded listing, and each claim's Receiver_ID names a
seeded receiver. -/
theorem seed_referential_integrity
    (qty : Fin 20 → Int) (expiry : Fin 20 → String) (pid : Fin 20 → Int)
    (food_id : Fin 15 → Int) (receiver_id : Fin 15 → Int)
    (status timestamp : Fin 15 → String)
    (hpid : ∀ i, 1 ≤ pid i ∧ pid i ≤ 10)
    (hfid : ∀ i, 1001 ≤ food_id i ∧ food_id i ≤ 1020)
    (hrid : ∀ i, 101 ≤ receiver_id i ∧ receiver_id i ≤ 108) :
    (∀ fl ∈ mkSeedListings qty expiry pid,
        ∃ p ∈ seedProviders, p.Provider_ID = fl.Provider_ID) ∧
    (∀ c ∈ mkSeedClaims food_id receiver_id status timestamp,
        ∃ fl ∈ mkSeedListings qty expiry pid, fl.Food_ID = some c.Food_ID) ∧
    (∀ c ∈ mkSeedClaims food_id receiver_id status timestamp,
        ∃ r ∈ seedReceivers, r.Receiver_ID = c.Receiver_ID) := by
  refine ⟨?_, ?_, ?_⟩
  · intro fl hfl
    obtain ⟨i, _, hfi⟩ := List.mem_filterMap.mp hfl
    obtain ⟨p, hfind, hgp⟩ := Option.map_eq_some'.mp hfi
    refine ⟨p, List.mem_of_find?_eq_some hfind, ?_⟩
    have hpred := List.find?_some hfind
    rw [← hgp]
    simpa [mkSeedRow] using hpred
  · intro c hc
    obtain ⟨i, _, hci⟩ := List.mem_map.mp hc
    have hcf : c.Food_ID = food_id i := by rw [← hci]
    obtain ⟨h1, h2⟩ := hfid i
    have hjlt : (food_id i - 1001).toNat < 20 := by omega
    have hpj := hpid ⟨(food_id i - 1001).toNat, hjlt⟩
    have hfindSome := seedProviders_find_isSome _ hpj.1 hpj.2
    obtain ⟨p, hfind⟩ := Option.isSome_iff_exists.mp hfindSome
    refine ⟨mkSeedRow qty expiry pid ⟨(food_id i - 1001).toNat, hjlt⟩ p, ?_, ?_⟩
    · refine List.mem_filterMap.mpr ⟨⟨(food_id i - 1001).toNat, hjlt⟩,
        List.mem_finRange _, ?_⟩
      rw [hfind]
      rfl
    · simp only [mkSeedRow, hcf, Option.some.injEq]
      omega
  · intro c hc
    obtain ⟨i, _, hci⟩ := List.mem_map.mp hc
    have hcr : c.Receiver_ID = receiver_id i := by rw [← hci]
    rw [hcr]
    exact seedReceivers_cover _ (hrid i).1 (hrid i).2

/-- C10 witness: a concrete admissible draw — provider ids cycling through
1..10, claim food ids 1001..1015, receiver id 101 — satisfies the range
hypotheses, and the integrity conclusions follow by the theorem. -/
theorem seed_referential_integrity_witness :
    (∀ i : Fin 20, 1 ≤ wpid i ∧ wpid i ≤ 10) ∧
    (∀ i : Fin 15, 1001 ≤ wcfid i ∧ wcfid i ≤ 1020) ∧
    (∀ i : Fin 15, 101 ≤ wcrid i ∧ wcrid i ≤ 108) ∧
    (∀ fl ∈ mkSeedListings wqty wexpiry wpid,
        ∃ p ∈ seedProviders, p.Provider_ID = fl.Provider_ID) ∧
    (∀ c ∈ mkSeedClaims wcfid wcrid wstatus wtimestamp,
        ∃ fl ∈ mkSeedListings wqty wexpiry wpid, fl.Food_ID = some c.Food_ID) ∧
    (∀ c ∈ mkSeedClaims wcfid wcrid wstatus wtimestamp,
        ∃ r ∈ seedReceivers, r.Receiver_ID = c.Receiver_ID) := by
  have h := seed_referential_integrity wqty wexpiry wpid wcfid wcrid wstatus wtimestamp
    (by decide) (by decide) (by decide)
  exact ⟨by decide, by decide, by decide, h.1, h.2.1, h.2.2⟩
